import Mathlib

/-!
Shallow embedding of `src/main.rs` of the p2p-chat repository: a libp2p
gossipsub + mDNS chat node.  The program is a single `main` function: a
startup sequence (transport, behaviour, subscription, listeners) followed
by an infinite `select!` loop multiplexing stdin lines with swarm events.

The embedding models one iteration of the loop as a pure function from the
ready event source (and the result the external gossipsub layer returns
for a publish call) to the list of observable actions the iteration
performs, in order: prints to stdout, sleeps, and directives issued to the
gossipsub layer.  The startup sequence is modelled over an environment
recording the result of each fallible external call, sequenced exactly as
the `?` operators in the source sequence them.
-/

namespace P2PChat

/-- Bytes are modelled as natural numbers below 256 where it matters. -/
abbrev Byte := Nat

/-- Opaque peer identifier assigned by the networking layer.  The textual
rendering used by Display and Debug formatting is abstracted over the
numeral; the claims do not depend on the concrete rendering. -/
abbrev PeerId := Nat

/-- Opaque gossipsub message identifier. -/
abbrev MessageId := Nat

/-- Multiaddresses are carried around as strings, matching the string
literals the source parses. -/
abbrev Multiaddr := String

/-- Display rendering of a PeerId (line 115, 124, 134 of main.rs). -/
def showPeer (p : PeerId) : String := toString p

/-- Debug rendering of a PeerId (line 117 of main.rs). -/
def showPeerDebug (p : PeerId) : String := "PeerId(" ++ toString p ++ ")"

/-- Errors the gossipsub publish call can return (the variants of
libp2p gossipsub PublishError; the library is external so the variants
are nominal). -/
inductive PublishError where
  | duplicate : PublishError
  | signingError : PublishError
  | insufficientPeers : PublishError
  | messageTooLarge : PublishError
  | transformFailed : PublishError
  | allQueuesFull : PublishError
deriving DecidableEq, Repr

/-- Debug rendering of a publish error, used by the error report on
line 106 of main.rs. -/
def showPubErr : PublishError → String
  | .duplicate => "Duplicate"
  | .signingError => "SigningError"
  | .insufficientPeers => "InsufficientPeers"
  | .messageTooLarge => "MessageTooLarge"
  | .transformFailed => "TransformFailed"
  | .allQueuesFull => "AllQueuesFull"

/-- Errors that can arise during the startup sequence (lines 38 to 89 of
main.rs); each constructor marks one fallible external call. -/
inductive StartupError where
  | tcpTransport (msg : String) : StartupError
  | gossipsubConstruction (msg : String) : StartupError
  | mdnsConstruction (msg : String) : StartupError
  | subscription (msg : String) : StartupError
  | addrParse (msg : String) : StartupError
  | listenFailure (msg : String) : StartupError
deriving DecidableEq, Repr

/-- UTF-8 encoding of one scalar value, the byte sequence Rust stores for
one char of a String; `line.as_bytes()` on line 104 of main.rs exposes
these bytes. -/
def charUtf8Bytes (c : Char) : List Byte :=
  let n := c.toNat
  if n < 0x80 then [n]
  else if n < 0x800 then [0xC0 + n / 0x40, 0x80 + n % 0x40]
  else if n < 0x10000 then
    [0xE0 + n / 0x1000, 0x80 + (n / 0x40) % 0x40, 0x80 + n % 0x40]
  else
    [0xF0 + n / 0x40000, 0x80 + (n / 0x1000) % 0x40,
     0x80 + (n / 0x40) % 0x40, 0x80 + n % 0x40]

/-- Byte content of a Rust String: the concatenated UTF-8 encodings of its
chars.  This is the model of `str::as_bytes`. -/
def strBytes (s : String) : List Byte := s.data.flatMap charUtf8Bytes

/-- Unicode replacement character substituted for invalid byte sequences
by lossy decoding. -/
def replChar : Char := Char.ofNat 0xFFFD

/-- Whether a byte is a UTF-8 continuation byte (0x80 to 0xBF). -/
def isCont (b : Byte) : Bool := 0x80 ≤ b && b ≤ 0xBF

/-- Valid second bytes of a three-byte UTF-8 sequence, given the first
byte: 0xE0 forbids overlong encodings, 0xED forbids surrogates. -/
def valid3Second (b c1 : Byte) : Bool :=
  if b = 0xE0 then 0xA0 ≤ c1 && c1 ≤ 0xBF
  else if b = 0xED then 0x80 ≤ c1 && c1 ≤ 0x9F
  else isCont c1

/-- Valid second bytes of a four-byte UTF-8 sequence, given the first
byte: 0xF0 forbids overlong encodings, 0xF4 caps at U+10FFFF. -/
def valid4Second (b c1 : Byte) : Bool :=
  if b = 0xF0 then 0x90 ≤ c1 && c1 ≤ 0xBF
  else if b = 0xF4 then 0x80 ≤ c1 && c1 ≤ 0x8F
  else isCont c1

/-- Lossy UTF-8 decoding, the model of Rust `String::from_utf8_lossy`
used on line 136 of main.rs: well-formed sequences decode to their scalar
value, and each maximal invalid subpart (per the substitution of maximal
subparts strategy Rust implements: one replacement per invalid prefix,
resuming at the first byte not part of a valid prefix) becomes one
replacement character.  Total by construction: decoding never fails. -/
def lossyDecode : List Byte → List Char
  | [] => []
  | b :: rest =>
    if b ≤ 0x7F then Char.ofNat b :: lossyDecode rest
    else if b < 0xC2 then replChar :: lossyDecode rest
    else if b ≤ 0xDF then
      match rest with
      | [] => [replChar]
      | c1 :: rest2 =>
        if isCont c1 then
          Char.ofNat ((b - 0xC0) * 0x40 + (c1 - 0x80)) :: lossyDecode rest2
        else replChar :: lossyDecode (c1 :: rest2)
    else if b ≤ 0xEF then
      match rest with
      | [] => [replChar]
      | c1 :: rest2 =>
        if valid3Second b c1 then
          match rest2 with
          | [] => [replChar]
          | c2 :: rest3 =>
            if isCont c2 then
              Char.ofNat ((b - 0xE0) * 0x1000 + (c1 - 0x80) * 0x40 + (c2 - 0x80))
                :: lossyDecode rest3
            else replChar :: lossyDecode (c2 :: rest3)
        else replChar :: lossyDecode (c1 :: rest2)
    else if b ≤ 0xF4 then
      match rest with
      | [] => [replChar]
      | c1 :: rest2 =>
        if valid4Second b c1 then
          match rest2 with
          | [] => [replChar]
          | c2 :: rest3 =>
            if isCont c2 then
              match rest3 with
              | [] => [replChar]
              | c3 :: rest4 =>
                if isCont c3 then
                  Char.ofNat ((b - 0xF0) * 0x40000 + (c1 - 0x80) * 0x1000 +
                      (c2 - 0x80) * 0x40 + (c3 - 0x80)) :: lossyDecode rest4
                else replChar :: lossyDecode (c3 :: rest4)
            else replChar :: lossyDecode (c2 :: rest3)
        else replChar :: lossyDecode (c1 :: rest2)
    else replChar :: lossyDecode rest
termination_by l => l.length
decreasing_by all_goals (simp_all [List.length]; try omega)

/-- Events of the mDNS discovery behaviour (external library); each
carries the discovered or expired (PeerId, Multiaddr) pairs. -/
inductive MdnsEvent where
  | discovered (list : List (PeerId × Multiaddr)) : MdnsEvent
  | expired (list : List (PeerId × Multiaddr)) : MdnsEvent
deriving DecidableEq, Repr

/-- Events of the gossipsub behaviour (external library).  Only the
message variant is handled by main.rs; the others fall to the catch-all
arm. -/
inductive GossipsubEvent where
  | message (propagation_source : PeerId) (message_id : MessageId)
      (data : List Byte) : GossipsubEvent
  | subscribed (peer_id : PeerId) (t : String) : GossipsubEvent
  | unsubscribed (peer_id : PeerId) (t : String) : GossipsubEvent
  | notSupported (peer_id : PeerId) : GossipsubEvent
deriving DecidableEq, Repr

/-- The composite behaviour event the NetworkBehaviour derive produces
for MyBehaviour (line 28 of main.rs): one case per sub-behaviour. -/
inductive MyBehaviourEvent where
  | gossipsub (e : GossipsubEvent) : MyBehaviourEvent
  | mdns (e : MdnsEvent) : MyBehaviourEvent
deriving DecidableEq, Repr

/-- Swarm events delivered to the loop.  Beyond the behaviour events and
NewListenAddr, the swarm emits connection-lifecycle events that main.rs
leaves to the catch-all arm; a numeric tag stands for the remaining
variants of the external enum. -/
inductive SwarmEvent where
  | behaviour (e : MyBehaviourEvent) : SwarmEvent
  | newListenAddr (address : Multiaddr) : SwarmEvent
  | connectionEstablished (peer_id : PeerId) : SwarmEvent
  | connectionClosed (peer_id : PeerId) : SwarmEvent
  | incomingConnection (tag : Nat) : SwarmEvent
  | otherUnmatched (tag : Nat) : SwarmEvent
deriving DecidableEq, Repr

/-- Observable actions one loop iteration performs, in program order:
stdout prints, the sleep, and directives issued to the gossipsub layer.
Subscribe and listen directives appear only in the startup trace. -/
inductive Action where
  | print (s : String) : Action
  | sleep (secs : Nat) : Action
  | publish (t : String) (data : List Byte) : Action
  | addExplicitPeer (peer_id : PeerId) : Action
  | removeExplicitPeer (peer_id : PeerId) : Action
  | subscribe (t : String) : Action
  | listen (addr : Multiaddr) : Action
deriving DecidableEq, Repr

/-- The fixed gossipsub topic created on line 78 of main.rs. -/
def topic : String := "xxxxxxxxxxxxxxxxxxxxxxxxxxxxxxxxxxxxxxxxxx"

/-- Single quote character used in the message display format string. -/
def squote : String := String.singleton (Char.ofNat 39)

/-- Stdout line printed per discovered peer (line 115 of main.rs). -/
def discoveredLine (p : PeerId) : String :=
  "mDNS discovered a new peer: " ++ showPeer p

/-- Stdout line printed after adding an explicit peer (line 117). -/
def addedLine (p : PeerId) : String :=
  "Added explicit peer: " ++ showPeerDebug p

/-- Stdout line printed per expired peer (line 124). -/
def expiredLine (p : PeerId) : String :=
  "mDNS discover peer has expired: " ++ showPeer p

/-- Stdout line printed for a received gossipsub message (lines 133 to
137): the payload text placed between single quotes, then id and peer. -/
def gotMessageLine (p : PeerId) (id : MessageId) (text : String) : String :=
  "Got message: " ++ squote ++ text ++ squote ++ " with id: " ++ toString id
    ++ " from peer: " ++ showPeer p

/-- Stdout line printed for a new listen address (line 141). -/
def listeningLine (a : Multiaddr) : String :=
  "Local node is listening on " ++ a

/-- Stdout line printed when a publish returns an error (line 106). -/
def publishErrorLine (e : PublishError) : String :=
  "Publish error: " ++ showPubErr e

/-- The swarm-event arm of the select loop (lines 110 to 145 of
main.rs): dispatch on the event, producing the iteration's actions in
program order.  The final wildcard arm of the source `match` is the
final catch-all here. -/
def handleSwarmEvent : SwarmEvent → List Action
  | .behaviour (.mdns (.discovered list)) =>
    list.flatMap (fun pr =>
      [Action.print (discoveredLine pr.1), Action.addExplicitPeer pr.1,
       Action.print (addedLine pr.1)])
  | .behaviour (.mdns (.expired list)) =>
    list.flatMap (fun pr =>
      [Action.print (expiredLine pr.1), Action.removeExplicitPeer pr.1])
  | .behaviour (.gossipsub (.message p id data)) =>
    [Action.print (gotMessageLine p id (String.mk (lossyDecode data)))]
  | .newListenAddr a => [Action.print (listeningLine a)]
  | _ => []

/-- The stdin arm of the select loop (lines 97 to 108 of main.rs), for a
line the reader delivered: sleep two seconds, publish the line's bytes on
the topic, and print a report when the publish call returned an error.
The publish outcome is an input because it is decided by the external
gossipsub layer. -/
def stdinBranch (line : String) (pubResult : Except PublishError MessageId) :
    List Action :=
  Action.sleep 2 ::
  Action.publish topic (strBytes line) ::
  match pubResult with
  | .ok _ => []
  | .error e => [Action.print (publishErrorLine e)]

/-- Read errors of the stdin line reader, nominal. -/
inductive IoError where
  | broken (tag : Nat) : IoError
deriving DecidableEq, Repr

/-- Which select arm fired this iteration: the stdin branch carries the
result of `stdin.next_line()` (the select pattern is `Ok(Some(line))`,
so Err and Ok(None) leave the branch without effect), the swarm branch
carries the swarm event. -/
inductive LoopInput where
  | stdinReady (r : Except IoError (Option String)) : LoopInput
  | swarmReady (e : SwarmEvent) : LoopInput
deriving Repr

/-- One iteration of the select loop (lines 93 to 147 of main.rs). -/
def loopStep : LoopInput → Except PublishError MessageId → List Action
  | .stdinReady (.ok (some line)), pub => stdinBranch line pub
  | .stdinReady _, _ => []
  | .swarmReady e, _ => handleSwarmEvent e

/-- The loop run over a finite prefix of iteration inputs, concatenating
each iteration's actions: the source loop is infinite, and this is its
observable trace after finitely many iterations.  No iteration can stop
the traversal. -/
def runLoop : List (LoopInput × Except PublishError MessageId) → List Action
  | [] => []
  | (i, r) :: rest => loopStep i r ++ runLoop rest

/-- Results of the fallible external calls of the startup sequence, in
source order: `with_tcp(...)?` (line 48), `gossipsub::Behaviour::new`
followed by `.expect` (line 61), `mdns::tokio::Behaviour::new(...)?`
(line 67), `subscribe(&topic)?` (line 81), the two address parses and the
two `listen_on(...)?` calls (lines 87 and 89). -/
structure StartupEnv where
  tcpSetup : Except StartupError Unit
  gossipsubNew : Except StartupError Unit
  mdnsNew : Except StartupError Unit
  subscribeResult : Except StartupError Bool
  quicAddrParse : Except StartupError Multiaddr
  listenQuic : Except StartupError Unit
  tcpAddrParse : Except StartupError Multiaddr
  listenTcp : Except StartupError Unit

/-- Banner printed at line 90 after startup succeeded. -/
def banner : String :=
  "Enter messages via STDIN and they will be sent to connected peers using Gossipsub"

/-- The startup sequence (lines 38 to 90 of main.rs): every fallible
step short-circuits with its error, exactly as `?` propagates (the
gossipsub `.expect` aborts too, modelled as the same propagation); on
success, the directives issued before the loop, in program order. -/
def startup (env : StartupEnv) : Except StartupError (List Action) :=
  match env.tcpSetup with
  | .error e => .error e
  | .ok _ =>
  match env.gossipsubNew with
  | .error e => .error e
  | .ok _ =>
  match env.mdnsNew with
  | .error e => .error e
  | .ok _ =>
  match env.subscribeResult with
  | .error e => .error e
  | .ok _ =>
  match env.quicAddrParse with
  | .error e => .error e
  | .ok qa =>
  match env.listenQuic with
  | .error e => .error e
  | .ok _ =>
  match env.tcpAddrParse with
  | .error e => .error e
  | .ok ta =>
  match env.listenTcp with
  | .error e => .error e
  | .ok _ =>
    .ok [Action.subscribe topic, Action.listen qa, Action.listen ta,
         Action.print banner]

/-- Whole program over a finite prefix of loop inputs: either startup
fails with an error (Rust main returns Err, the process aborts before the
loop), or the startup trace followed by the loop trace. -/
def mainRun (env : StartupEnv)
    (inputs : List (LoopInput × Except PublishError MessageId)) :
    Except StartupError (List Action) :=
  match startup env with
  | .error e => .error e
  | .ok acts => .ok (acts ++ runLoop inputs)

/-- Process exit code: a Rust main returning `Err` makes the process
print the error and exit nonzero; returning `Ok` exits with zero. -/
def exitCode : Except StartupError (List Action) → Nat
  | .ok _ => 0
  | .error _ => 1

/-- Errors of the failing startup steps, in the order the steps run;
used to state that an aborting startup reports an underlying cause. -/
def startupErrors (env : StartupEnv) : List StartupError :=
  (match env.tcpSetup with | .error e => [e] | .ok _ => []) ++
  (match env.gossipsubNew with | .error e => [e] | .ok _ => []) ++
  (match env.mdnsNew with | .error e => [e] | .ok _ => []) ++
  (match env.subscribeResult with | .error e => [e] | .ok _ => []) ++
  (match env.quicAddrParse with | .error e => [e] | .ok _ => []) ++
  (match env.listenQuic with | .error e => [e] | .ok _ => []) ++
  (match env.tcpAddrParse with | .error e => [e] | .ok _ => []) ++
  (match env.listenTcp with | .error e => [e] | .ok _ => [])

/-- The four event shapes main.rs handles explicitly; every other swarm
event falls to the wildcard arm. -/
def isHandledEvent : SwarmEvent → Bool
  | .behaviour (.mdns (.discovered _)) => true
  | .behaviour (.mdns (.expired _)) => true
  | .behaviour (.gossipsub (.message _ _ _)) => true
  | .newListenAddr _ => true
  | _ => false

/-- Whether an action is a gossipsub publish directive. -/
def isPublish : Action → Bool
  | .publish _ _ => true
  | _ => false

/-- Startup environment in which every external call succeeds, used to
exercise the success path of the model on concrete inputs. -/
def envOk : StartupEnv where
  tcpSetup := .ok ()
  gossipsubNew := .ok ()
  mdnsNew := .ok ()
  subscribeResult := .ok true
  quicAddrParse := .ok "/ip4/0.0.0.0/udp/0/quic-v1"
  listenQuic := .ok ()
  tcpAddrParse := .ok "/ip4/0.0.0.0/tcp/0"
  listenTcp := .ok ()

/-- Startup environment whose TCP transport construction fails, used to
exercise the abort path of the model on a concrete input. -/
def envTcpFail : StartupEnv where
  tcpSetup := .error (.tcpTransport "bind refused")
  gossipsubNew := .ok ()
  mdnsNew := .ok ()
  subscribeResult := .ok true
  quicAddrParse := .ok "/ip4/0.0.0.0/udp/0/quic-v1"
  listenQuic := .ok ()
  tcpAddrParse := .ok "/ip4/0.0.0.0/tcp/0"
  listenTcp := .ok ()

/-! Sanity lemmas for the lossy decoder: invalid byte sequences become
replacement characters, valid ones decode to their scalar values. -/

lemma lossyDecode_invalid_byte : lossyDecode [0xFF, 0x61] = [replChar, 'a'] := by
  simp [lossyDecode, replChar]

lemma lossyDecode_truncated_tail : lossyDecode [0xE2, 0x82] = [replChar] := by
  simp [lossyDecode, valid3Second, isCont]

lemma lossyDecode_euro : lossyDecode [0xE2, 0x82, 0xAC] = [Char.ofNat 0x20AC] := by
  simp [lossyDecode, valid3Second, isCont]

lemma lossyDecode_surrogate :
    lossyDecode [0xED, 0xA0, 0x80] = [replChar, replChar, replChar] := by
  simp [lossyDecode, valid3Second, isCont]

/-! Helper lemmas about the traces of the loop. -/

/-- The swarm-event arm never issues a publish directive. -/
lemma no_publish_in_handleSwarmEvent (e : SwarmEvent) (t : String)
    (d : List Byte) : Action.publish t d ∉ handleSwarmEvent e := by
  cases e with
  | behaviour be =>
    cases be with
    | gossipsub ge => cases ge <;> simp [handleSwarmEvent]
    | mdns me =>
      cases me <;> simp [handleSwarmEvent, List.mem_flatMap]
  | newListenAddr a => simp [handleSwarmEvent]
  | connectionEstablished p => simp [handleSwarmEvent]
  | connectionClosed p => simp [handleSwarmEvent]
  | incomingConnection tag => simp [handleSwarmEvent]
  | otherUnmatched tag => simp [handleSwarmEvent]

/-- Every publish directive a loop iteration issues names the fixed
topic. -/
lemma publish_topic_of_mem_loopStep (i : LoopInput)
    (r : Except PublishError MessageId) (t : String) (d : List Byte)
    (h : Action.publish t d ∈ loopStep i r) : t = topic := by
  cases i with
  | stdinReady s =>
    cases s with
    | error ioe => simp [loopStep] at h
    | ok o =>
      cases o with
      | none => simp [loopStep] at h
      | some line =>
        simp only [loopStep, stdinBranch] at h
        rcases r with e | id <;> simp_all
  | swarmReady e => exact absurd h (no_publish_in_handleSwarmEvent e t d)

/-- Every publish directive in a loop trace names the fixed topic. -/
lemma publish_topic_of_mem_runLoop
    (inputs : List (LoopInput × Except PublishError MessageId)) (t : String)
    (d : List Byte) (h : Action.publish t d ∈ runLoop inputs) : t = topic := by
  induction inputs with
  | nil => simp [runLoop] at h
  | cons ir rest ih =>
    obtain ⟨i, r⟩ := ir
    simp only [runLoop, List.mem_append] at h
    rcases h with h | h
    · exact publish_topic_of_mem_loopStep i r t d h
    · exact ih h

/-- Shape of the startup trace on the success path. -/
lemma startup_ok_shape (env : StartupEnv) (acts : List Action)
    (h : startup env = Except.ok acts) :
    ∃ qa ta, acts = [Action.subscribe topic, Action.listen qa,
      Action.listen ta, Action.print banner] := by
  obtain ⟨t1, t2, t3, t4, t5, t6, t7, t8⟩ := env
  simp only [startup] at h
  rcases t1 with e | u1 <;> rcases t2 with e | u2 <;> rcases t3 with e | u3 <;>
    rcases t4 with e | u4 <;> rcases t5 with e | qa <;>
    rcases t6 with e | u6 <;> rcases t7 with e | ta <;>
    rcases t8 with e | u8 <;> simp_all
  exact ⟨qa, ta, h.symm⟩

/-- C1: for every line of text read from standard input, the byte
sequence submitted to the publish operation equals the bytes of that line
exactly (the line as delivered by the line reader, without its
terminator): the iteration publishes `strBytes line` verbatim, and every
publish directive of the iteration carries exactly those bytes. -/
theorem stdin_line_published_verbatim (line : String)
    (pub : Except PublishError MessageId) :
    (∃ tail, loopStep (.stdinReady (.ok (some line))) pub =
      Action.sleep 2 :: Action.publish topic (strBytes line) :: tail) ∧
    (∀ t d, Action.publish t d ∈ loopStep (.stdinReady (.ok (some line))) pub →
      d = strBytes line) := by
  constructor
  · exact ⟨_, rfl⟩
  · intro t d hmem
    simp only [loopStep, stdinBranch] at hmem
    rcases pub with e | id <;> simp_all

/-- Witness for C1 at the concrete line "hi" with a successful publish. -/
theorem stdin_line_published_verbatim_witness :
    strBytes "hi" = strBytes "hi" :=
  (stdin_line_published_verbatim "hi" (Except.ok 0)).2 topic (strBytes "hi")
    (by simp [loopStep, stdinBranch])

/-- C2: for every received-message network event, the handler emits
exactly one observability record, whose text is exactly the lossy UTF-8
decoding of the payload bytes; the decoding is a total function, so this
step never fails for any payload. -/
theorem received_message_prints_lossy_decode (p : PeerId) (id : MessageId)
    (data : List Byte) :
    handleSwarmEvent (.behaviour (.gossipsub (.message p id data))) =
      [Action.print (gotMessageLine p id (String.mk (lossyDecode data)))] :=
  rfl

/-- C3: for every line received from input — not only the first — the
iteration's first action is the fixed 2-second sleep, and any publish
directive of the iteration is preceded by that sleep. -/
theorem every_line_sleeps_before_publish (line : String)
    (pub : Except PublishError MessageId) :
    (loopStep (.stdinReady (.ok (some line))) pub).head? =
      some (Action.sleep 2) ∧
    (∀ pre t d post,
      loopStep (.stdinReady (.ok (some line))) pub =
        pre ++ Action.publish t d :: post →
      Action.sleep 2 ∈ pre) := by
  refine ⟨rfl, ?_⟩
  intro pre t d post h
  cases pre with
  | nil =>
    rcases pub with e | id <;> simp [loopStep, stdinBranch] at h
  | cons a pre2 =>
    have hh := congrArg List.head? h
    rcases pub with e | id <;> simp [loopStep, stdinBranch] at hh <;>
      simp [hh]

/-- Witness for C3 at the concrete line "hello" with a successful
publish: the decomposition exhibiting the publish has the sleep before
it. -/
theorem every_line_sleeps_before_publish_witness :
    Action.sleep 2 ∈ [Action.sleep 2] :=
  (every_line_sleeps_before_publish "hello" (Except.ok 0)).2
    [Action.sleep 2] topic (strBytes "hello") []
    (by simp [loopStep, stdinBranch])

/-- C4: for every publish attempt returning an error, the iteration's
actions are exactly sleep, the single publish attempt, and the printed
error report — the error is reported, exactly one publish is attempted
(no retry), no action terminates anything, and the loop goes on to
process the remaining iterations unchanged. -/
theorem publish_error_reported_loop_continues (line : String)
    (e : PublishError)
    (rest : List (LoopInput × Except PublishError MessageId)) :
    loopStep (.stdinReady (.ok (some line))) (.error e) =
      [Action.sleep 2, Action.publish topic (strBytes line),
       Action.print (publishErrorLine e)] ∧
    runLoop ((LoopInput.stdinReady (.ok (some line)), Except.error e) ::
        rest) =
      loopStep (.stdinReady (.ok (some line))) (.error e) ++ runLoop rest ∧
    (loopStep (.stdinReady (.ok (some line))) (.error e)).countP isPublish
      = 1 := by
  refine ⟨rfl, rfl, ?_⟩
  simp [loopStep, stdinBranch, List.countP_cons, isPublish]

/-- C8: for every network event other than peer-discovered, peer-expired,
message-received and new-listening-address, the handler is a no-op: it
produces no action at all (no print, no directive, no state change). -/
theorem unhandled_event_is_noop (e : SwarmEvent)
    (h : isHandledEvent e = false) : handleSwarmEvent e = [] := by
  cases e with
  | behaviour be =>
    cases be with
    | gossipsub ge => cases ge <;> simp_all [isHandledEvent, handleSwarmEvent]
    | mdns me => cases me <;> simp_all [isHandledEvent]
  | newListenAddr a => simp [isHandledEvent] at h
  | connectionEstablished p => rfl
  | connectionClosed p => rfl
  | incomingConnection tag => rfl
  | otherUnmatched tag => rfl

/-- Witness for C8 at a concrete unhandled event. -/
theorem unhandled_event_is_noop_witness :
    handleSwarmEvent (SwarmEvent.connectionEstablished 7) = [] :=
  unhandled_event_is_noop (SwarmEvent.connectionEstablished 7) (by decide)

/-- C10: when the line reader yields end-of-file or a read error, the
select pattern `Ok(Some(line))` fails, so the stdin branch produces no
action for that iteration — no publish, no report, no termination — and
the loop's trace over the remaining iterations is unchanged. -/
theorem stdin_eof_or_error_no_action (pub : Except PublishError MessageId)
    (ioe : IoError)
    (rest : List (LoopInput × Except PublishError MessageId)) :
    loopStep (.stdinReady (.ok none)) pub = [] ∧
    loopStep (.stdinReady (.error ioe)) pub = [] ∧
    runLoop ((LoopInput.stdinReady (.ok none), pub) :: rest) =
      runLoop rest ∧
    runLoop ((LoopInput.stdinReady (.error ioe), pub) :: rest) =
      runLoop rest := by
  refine ⟨rfl, rfl, ?_, ?_⟩ <;> simp [runLoop, loopStep]

/-- Count of add-explicit-peer directives for one peer in the handling of
a discovery event: the multiplicity of that peer among the event's
reported pairs. -/
lemma count_addExplicitPeer_discovered (l : List (PeerId × Multiaddr))
    (p : PeerId) :
    (handleSwarmEvent (.behaviour (.mdns (.discovered l)))).count
        (Action.addExplicitPeer p) = (l.map Prod.fst).count p := by
  simp only [handleSwarmEvent]
  induction l with
  | nil => rfl
  | cons hd tl ih =>
    simp [List.count_append, List.count_cons, ih]

/-- Count of remove-explicit-peer directives for one peer in the handling
of an expiry event: the multiplicity of that peer among the event's
reported pairs. -/
lemma count_removeExplicitPeer_expired (l : List (PeerId × Multiaddr))
    (p : PeerId) :
    (handleSwarmEvent (.behaviour (.mdns (.expired l)))).count
        (Action.removeExplicitPeer p) = (l.map Prod.fst).count p := by
  simp only [handleSwarmEvent]
  induction l with
  | nil => rfl
  | cons hd tl ih =>
    simp [List.count_append, List.count_cons, ih]

/-- C5: for every peer-discovered event, the add-explicit-peer directive
is issued once per occurrence of the peer in the reported pairs — so for
a set (no duplicate peers in one event) exactly once per peer per event,
with no deduplication across events (the handler is stateless in the
event) — together with an observability record for that peer. -/
theorem discovered_peer_added_once_per_event
    (l : List (PeerId × Multiaddr)) (p : PeerId) :
    ((handleSwarmEvent (.behaviour (.mdns (.discovered l)))).count
        (Action.addExplicitPeer p) = (l.map Prod.fst).count p) ∧
    ((l.map Prod.fst).Nodup → p ∈ l.map Prod.fst →
      (handleSwarmEvent (.behaviour (.mdns (.discovered l)))).count
        (Action.addExplicitPeer p) = 1) ∧
    (p ∈ l.map Prod.fst →
      Action.print (discoveredLine p) ∈
        handleSwarmEvent (.behaviour (.mdns (.discovered l)))) := by
  refine ⟨count_addExplicitPeer_discovered l p, ?_, ?_⟩
  · intro hnd hmem
    rw [count_addExplicitPeer_discovered l p]
    exact List.count_eq_one_of_mem hnd hmem
  · intro hmem
    obtain ⟨pr, hpr, hfst⟩ := List.mem_map.mp hmem
    simp only [handleSwarmEvent, List.mem_flatMap]
    exact ⟨pr, hpr, by simp [hfst]⟩

/-- Witness for C5: a singleton discovery event for peer 5 yields exactly
one add directive and its record. -/
theorem discovered_peer_added_once_per_event_witness :
    ((handleSwarmEvent
        (.behaviour (.mdns (.discovered [(5, "/ip4/192.168.1.2/tcp/4001")])))).count
      (Action.addExplicitPeer 5) = 1) ∧
    Action.print (discoveredLine 5) ∈
      handleSwarmEvent
        (.behaviour (.mdns (.discovered [(5, "/ip4/192.168.1.2/tcp/4001")]))) :=
  ⟨(discovered_peer_added_once_per_event [(5, "/ip4/192.168.1.2/tcp/4001")] 5).2.1
      (by simp) (by simp),
   (discovered_peer_added_once_per_event [(5, "/ip4/192.168.1.2/tcp/4001")] 5).2.2
      (by simp)⟩

/-- C6: for every peer-expired event, the remove-explicit-peer directive
is issued for each peer in the reported pairs (once per occurrence), so
every peer of the event has its untrack directive issued. -/
theorem expired_peer_removed (l : List (PeerId × Multiaddr)) (p : PeerId) :
    ((handleSwarmEvent (.behaviour (.mdns (.expired l)))).count
        (Action.removeExplicitPeer p) = (l.map Prod.fst).count p) ∧
    (p ∈ l.map Prod.fst →
      Action.removeExplicitPeer p ∈
        handleSwarmEvent (.behaviour (.mdns (.expired l)))) := by
  refine ⟨count_removeExplicitPeer_expired l p, ?_⟩
  intro hmem
  obtain ⟨pr, hpr, hfst⟩ := List.mem_map.mp hmem
  simp only [handleSwarmEvent, List.mem_flatMap]
  exact ⟨pr, hpr, by simp [hfst]⟩

/-- Witness for C6: a singleton expiry event for peer 9 yields its remove
directive. -/
theorem expired_peer_removed_witness :
    Action.removeExplicitPeer 9 ∈
      handleSwarmEvent
        (.behaviour (.mdns (.expired [(9, "/ip4/192.168.1.3/tcp/4001")]))) :=
  (expired_peer_removed [(9, "/ip4/192.168.1.3/tcp/4001")] 9).2 (by simp)

/-- C7: every failure in the startup sequence — transport setup,
behaviour construction, subscription, address parse or listen — makes the
whole run abort with that underlying error before any loop iteration
contributes to the trace, and the process exit code is nonzero. -/
theorem startup_failure_aborts (env : StartupEnv)
    (inputs : List (LoopInput × Except PublishError MessageId))
    (e : StartupError) (h : (startupErrors env).head? = some e) :
    mainRun env inputs = Except.error e ∧
    exitCode (mainRun env inputs) ≠ 0 ∧ e ∈ startupErrors env := by
  obtain ⟨t1, t2, t3, t4, t5, t6, t7, t8⟩ := env
  simp only [startupErrors, mainRun, startup, exitCode] at *
  rcases t1 with e1 | u1 <;> rcases t2 with e2 | u2 <;>
    rcases t3 with e3 | u3 <;> rcases t4 with e4 | u4 <;>
    rcases t5 with e5 | qa <;> rcases t6 with e6 | u6 <;>
    rcases t7 with e7 | ta <;> rcases t8 with e8 | u8 <;> simp_all

/-- Witness for C7: the environment whose TCP transport setup fails
aborts with that error. -/
theorem startup_failure_aborts_witness :
    mainRun envTcpFail [] =
      Except.error (StartupError.tcpTransport "bind refused") ∧
    exitCode (mainRun envTcpFail []) ≠ 0 ∧
    StartupError.tcpTransport "bind refused" ∈ startupErrors envTcpFail :=
  startup_failure_aborts envTcpFail []
    (StartupError.tcpTransport "bind refused") rfl

/-- The swarm-event arm never issues a subscribe directive (the one
subscription happens at startup). -/
lemma no_subscribe_in_handleSwarmEvent (e : SwarmEvent) (t : String) :
    Action.subscribe t ∉ handleSwarmEvent e := by
  cases e with
  | behaviour be =>
    cases be with
    | gossipsub ge => cases ge <;> simp [handleSwarmEvent]
    | mdns me => cases me <;> simp [handleSwarmEvent, List.mem_flatMap]
  | newListenAddr a => simp [handleSwarmEvent]
  | connectionEstablished p => simp [handleSwarmEvent]
  | connectionClosed p => simp [handleSwarmEvent]
  | incomingConnection tag => simp [handleSwarmEvent]
  | otherUnmatched tag => simp [handleSwarmEvent]

/-- No loop iteration issues a subscribe directive. -/
lemma no_subscribe_in_runLoop
    (inputs : List (LoopInput × Except PublishError MessageId))
    (t : String) : Action.subscribe t ∉ runLoop inputs := by
  induction inputs with
  | nil => simp [runLoop]
  | cons ir rest ih =>
    obtain ⟨i, r⟩ := ir
    simp only [runLoop, List.mem_append]
    rintro (h | h)
    · cases i with
      | stdinReady s =>
        rcases s with ioe | o
        · simp [loopStep] at h
        · cases o with
          | none => simp [loopStep] at h
          | some line =>
            simp only [loopStep, stdinBranch] at h
            rcases r with e | id <;> simp_all
      | swarmReady e => exact no_subscribe_in_handleSwarmEvent e t h
    · exact ih h

/-- C9: the topic is the single compiled-in placeholder constant of 42
letters x, the subscription issued at startup names it, and every publish
directive in any run's trace names the same constant. -/
theorem topic_fixed_for_subscribe_and_publish :
    topic = "xxxxxxxxxxxxxxxxxxxxxxxxxxxxxxxxxxxxxxxxxx" ∧
    ∀ env inputs acts, mainRun env inputs = Except.ok acts →
      (Action.subscribe topic ∈ acts ∧
        ∀ t, Action.subscribe t ∈ acts → t = topic) ∧
      (∀ t d, Action.publish t d ∈ acts → t = topic) := by
  refine ⟨rfl, ?_⟩
  intro env inputs acts h
  have hs : ∃ acts0, startup env = Except.ok acts0 ∧
      acts = acts0 ++ runLoop inputs := by
    unfold mainRun at h
    rcases hs0 : startup env with e | acts0 <;> rw [hs0] at h
    · exact absurd h (by simp)
    · exact ⟨acts0, rfl, by simpa using h.symm⟩
  obtain ⟨acts0, hok, hacts⟩ := hs
  obtain ⟨qa, ta, hshape⟩ := startup_ok_shape env acts0 hok
  subst hshape hacts
  refine ⟨⟨by simp, ?_⟩, ?_⟩
  · intro t ht
    simp only [List.mem_append] at ht
    rcases ht with ht | ht
    · simp at ht
      exact ht
    · exact absurd ht (no_subscribe_in_runLoop inputs t)
  · intro t d ht
    simp only [List.mem_append] at ht
    rcases ht with ht | ht
    · simp at ht
    · exact publish_topic_of_mem_runLoop inputs t d ht

/-- Witness for C9: a concrete successful run with one published line;
its one subscribe directive and its one publish directive name the fixed
topic. -/
theorem topic_fixed_for_subscribe_and_publish_witness :
    topic = topic ∧ topic = topic :=
  ⟨(topic_fixed_for_subscribe_and_publish).2 envOk
      [(LoopInput.stdinReady (Except.ok (some "hi")), Except.ok 0)]
      ([Action.subscribe topic, Action.listen "/ip4/0.0.0.0/udp/0/quic-v1",
        Action.listen "/ip4/0.0.0.0/tcp/0", Action.print banner] ++
        [Action.sleep 2, Action.publish topic (strBytes "hi")]) rfl
    |>.1.2 topic (by simp),
   (topic_fixed_for_subscribe_and_publish).2 envOk
      [(LoopInput.stdinReady (Except.ok (some "hi")), Except.ok 0)]
      ([Action.subscribe topic, Action.listen "/ip4/0.0.0.0/udp/0/quic-v1",
        Action.listen "/ip4/0.0.0.0/tcp/0", Action.print banner] ++
        [Action.sleep 2, Action.publish topic (strBytes "hi")]) rfl
    |>.2 topic (strBytes "hi") (by simp)⟩

end P2PChat
